import Mathlib

/-!
Shallow embedding of the floors-core client layer.

The embedding covers:
* the slippage arithmetic and the `buy` / `sell` / `approve` mutations of the
  `Market` facade (`src/client/market.ts`), including the exact sequence of
  contract reads and writes each mutation performs;
* the stateless trade executor (`executeBuyTrade` / `executeSellTrade`);
* the data-fetch hooks and their option-merging (object-spread) policy.

JavaScript `bigint` values are modelled as `Int`; the `/` operator on JS
bigints truncates toward zero, which is `Int.tdiv`.  Contract state read
over RPC is modelled by an explicit environment record, and every contract
interaction a mutation performs is recorded in a trace list.
-/

/-- JS bigint division: arbitrary precision, truncation toward zero. -/
def bigintDiv (a b : Int) : Int :=
  Int.tdiv a b

/-- Slippage floor computed by both mutations
(`market.ts` lines 210 and 299):
`minAmountOut = (expectedOut * BigInt(10000 - slippageBps)) / BigInt(10000)`. -/
def minAmountOut (expectedOut slippageBps : Int) : Int :=
  bigintDiv (expectedOut * (10000 - slippageBps)) 10000

/-- Error message thrown when no wallet account is active. -/
def walletNotConnectedMsg : String :=
  "Wallet not connected. Please connect your wallet to continue."

/-- Error message thrown by `buy` / `sell` for a non-positive amount. -/
def invalidAmountMsg : String :=
  "Invalid amount. Amount must be greater than 0."

/-- Error message thrown by `approve` for a non-positive amount. -/
def invalidApprovalMsg : String :=
  "Invalid approval amount. Amount must be greater than 0."

/-- Error message thrown by `sell` when the market's sell side is closed. -/
def sellNotEnabledMsg : String :=
  "Selling is not enabled on this market. Contact admin to enable selling."

/-- Error message thrown by `sell` when the caller's fToken balance is too
small (`market.ts` line 270). -/
def insufficientBalanceMsg (balance depositAmount : Int) : String :=
  "Insufficient fToken balance. You have " ++ toString balance ++
    " but trying to sell " ++ toString depositAmount

/-- Everything of the insufficient-allowance message that precedes the
fToken address (`market.ts` line 284). -/
def insufficientAllowancePrefix (depositAmount allowance : Int) : String :=
  "Insufficient fToken allowance. Please approve the Floor contract to spend your fTokens first.\n\nRequired: " ++
    toString depositAmount ++ "\nCurrent: " ++ toString allowance ++
    "\n\nApprove fToken at: "

/-- Error message thrown by `sell` when the caller's allowance is too small;
it ends with the fToken address the caller needs to approve. -/
def insufficientAllowanceMsg (depositAmount allowance : Int)
    (fTokenAddress : String) : String :=
  insufficientAllowancePrefix depositAmount allowance ++ fTokenAddress

/-- One string contains another as a contiguous substring. -/
def containsSubstring (msg sub : String) : Prop :=
  ∃ pre post, msg = pre ++ sub ++ post

/-- One contract interaction performed by a `Market` mutation. -/
inductive ContractCall where
  | readIsSellOpen
  | readIssuanceToken
  | readBalanceOf (token owner : String)
  | readAllowance (token owner spender : String)
  | readPurchaseReturn (amount : Int)
  | readSaleReturn (amount : Int)
  | writeBuy (deposit minOut : Int)
  | writeSell (deposit minOut : Int)
  | writeApprove (token spender : String) (amount : Int)
  deriving DecidableEq

/-- Whether a contract call is an ERC20 `allowance` read. -/
def ContractCall.isAllowanceRead : ContractCall → Bool
  | .readAllowance _ _ _ => true
  | _ => false

/-- Whether a contract call is a state-changing write (transaction). -/
def ContractCall.isWriteCall : ContractCall → Bool
  | .writeBuy _ _ => true
  | .writeSell _ _ => true
  | .writeApprove _ _ _ => true
  | _ => false

/-- The chain state a mutation observes: the wagmi account (if a wallet is
connected) and the value each contract read returns.  Reads are modelled as
succeeding with these values; write submissions return `writeHash`. -/
structure MarketEnv where
  account : Option String
  isSellOpen : Bool
  fTokenAddress : String
  balanceOf : Int
  allowance : Int
  purchaseReturn : Int → Int
  saleReturn : Int → Int
  writeHash : String

/-- Result value of a successful `Market` mutation (`TMarketMutationResult`). -/
structure TMarketMutationResult where
  hash : String
  deriving DecidableEq

/-- The `buy` mutation (`market.ts` lines 185-223): validate account then
amount, read `calculatePurchaseReturn`, compute the slippage floor, submit
`buy(depositAmount, minAmountOut)`.  Returns the result together with the
trace of contract calls performed. -/
def marketBuy (env : MarketEnv) (depositAmount slippageBps : Int) :
    Except String TMarketMutationResult × List ContractCall :=
  match env.account with
  | none => (Except.error walletNotConnectedMsg, [])
  | some _ =>
    if depositAmount ≤ 0 then
      (Except.error invalidAmountMsg, [])
    else
      let expectedOut := env.purchaseReturn depositAmount
      let minOut := minAmountOut expectedOut slippageBps
      (Except.ok ⟨env.writeHash⟩,
        [ContractCall.readPurchaseReturn depositAmount,
         ContractCall.writeBuy depositAmount minOut])

/-- The `sell` mutation (`market.ts` lines 225-313): validate account and
amount, check `isSellOpen`, resolve the fToken address, check balance, check
allowance, read `calculateSaleReturn`, compute the slippage floor, submit
`sell(depositAmount, minAmountOut)`. -/
def marketSell (env : MarketEnv) (marketAddress : String)
    (depositAmount slippageBps : Int) :
    Except String TMarketMutationResult × List ContractCall :=
  match env.account with
  | none => (Except.error walletNotConnectedMsg, [])
  | some acct =>
    if depositAmount ≤ 0 then
      (Except.error invalidAmountMsg, [])
    else if !env.isSellOpen then
      (Except.error sellNotEnabledMsg, [ContractCall.readIsSellOpen])
    else
      let fTok := env.fTokenAddress
      if env.balanceOf < depositAmount then
        (Except.error (insufficientBalanceMsg env.balanceOf depositAmount),
         [ContractCall.readIsSellOpen, ContractCall.readIssuanceToken,
          ContractCall.readBalanceOf fTok acct])
      else if env.allowance < depositAmount then
        (Except.error
          (insufficientAllowanceMsg depositAmount env.allowance fTok),
         [ContractCall.readIsSellOpen, ContractCall.readIssuanceToken,
          ContractCall.readBalanceOf fTok acct,
          ContractCall.readAllowance fTok acct marketAddress])
      else
        let expectedOut := env.saleReturn depositAmount
        let minOut := minAmountOut expectedOut slippageBps
        (Except.ok ⟨env.writeHash⟩,
         [ContractCall.readIsSellOpen, ContractCall.readIssuanceToken,
          ContractCall.readBalanceOf fTok acct,
          ContractCall.readAllowance fTok acct marketAddress,
          ContractCall.readSaleReturn depositAmount,
          ContractCall.writeSell depositAmount minOut])

/-- The `approve` mutation (`market.ts` lines 315-352): validate account and
amount, resolve the fToken address, submit `approve(market, amount)` on the
fToken contract. -/
def marketApprove (env : MarketEnv) (marketAddress : String) (amount : Int) :
    Except String TMarketMutationResult × List ContractCall :=
  match env.account with
  | none => (Except.error walletNotConnectedMsg, [])
  | some _ =>
    if amount ≤ 0 then
      (Except.error invalidApprovalMsg, [])
    else
      (Except.ok ⟨env.writeHash⟩,
       [ContractCall.readIssuanceToken,
        ContractCall.writeApprove env.fTokenAddress marketAddress amount])

/-- The public method `Market.approveFToken` (`market.ts` lines 122-145):
it performs no validation at all — it resolves the fToken address and
submits `approve(market, amount)` directly. -/
def approveFToken (env : MarketEnv) (marketAddress : String) (amount : Int) :
    Except String TMarketMutationResult × List ContractCall :=
  (Except.ok ⟨env.writeHash⟩,
   [ContractCall.readIssuanceToken,
    ContractCall.writeApprove env.fTokenAddress marketAddress amount])

/-- Direction of a trade (`TradeResult.direction`). -/
inductive TradeDirection where
  | buy
  | sell
  deriving DecidableEq

/-- Result of a trade execution (`TradeResult` in `trade.ts`). -/
structure TradeResult where
  hash : String
  direction : TradeDirection
  deriving DecidableEq

/-- The viem wallet client handle: optional active account, plus the hash
its `writeContract` submission returns. -/
structure WalletClient where
  account : Option String
  writeResult : String

/-- Parameters of a buy trade (`BuyTradeParams`): decimal strings plus the
reserve token's decimal precision. -/
structure BuyTradeParams where
  floorAssetAddress : String
  depositAmount : String
  minAmountOut : String
  decimals : Nat

/-- Parameters of a sell trade (`SellTradeParams`). -/
structure SellTradeParams where
  floorAssetAddress : String
  sellAmount : String
  minAmountOut : String
  decimals : Nat

/-- A state-changing contract submission made by the trade executor:
target address, entry-point name, and the integer arguments. -/
structure TradeWrite where
  address : String
  functionName : String
  args : List Int
  deriving DecidableEq

/-- `executeBuyTrade` (`trade.ts`): fail when the wallet has no account;
otherwise convert both decimal strings with `parseUnits` (the external
fixed-point conversion, passed in as `parseUnits`) at the supplied decimal
precision and submit one `buy` call with the two integers.  Returns the
result together with the list of submissions made. -/
def executeBuyTrade (parseUnits : String → Nat → Int)
    (walletClient : WalletClient) (params : BuyTradeParams) :
    Except String TradeResult × List TradeWrite :=
  match walletClient.account with
  | none => (Except.error "Wallet account is not available", [])
  | some _ =>
    let depositAmountWei := parseUnits params.depositAmount params.decimals
    let minAmountOutWei := parseUnits params.minAmountOut params.decimals
    (Except.ok ⟨walletClient.writeResult, TradeDirection.buy⟩,
     [⟨params.floorAssetAddress, "buy", [depositAmountWei, minAmountOutWei]⟩])

/-- `executeSellTrade` (`trade.ts`): same protocol as `executeBuyTrade`,
submitting one `sell` call and reporting the sell direction. -/
def executeSellTrade (parseUnits : String → Nat → Int)
    (walletClient : WalletClient) (params : SellTradeParams) :
    Except String TradeResult × List TradeWrite :=
  match walletClient.account with
  | none => (Except.error "Wallet account is not available", [])
  | some _ =>
    let sellAmountWei := parseUnits params.sellAmount params.decimals
    let minAmountOutWei := parseUnits params.minAmountOut params.decimals
    (Except.ok ⟨walletClient.writeResult, TradeDirection.sell⟩,
     [⟨params.floorAssetAddress, "sell", [sellAmountWei, minAmountOutWei]⟩])

/-- The query-policy fields the hooks set or forward. `retry` stands for a
policy field none of the hooks computes, forwarded only through the spread. -/
inductive PolicyField where
  | enabled
  | staleTime
  | gcTime
  | retry
  deriving DecidableEq

/-- A policy value: boolean (`enabled`) or millisecond / count (`staleTime`,
`gcTime`, `retry`). -/
inductive PolicyVal where
  | b (x : Bool)
  | n (x : Nat)
  deriving DecidableEq

/-- The caller's option bag: each field is present or absent. -/
structure QueryOptions where
  enabled : Option Bool
  staleTime : Option Nat
  gcTime : Option Nat
  retry : Option Nat
  deriving DecidableEq

/-- Calling a hook with no options at all. -/
def noOptions : QueryOptions :=
  ⟨none, none, none, none⟩

/-- The entries the caller's option bag contributes to an object spread:
one entry per present field. -/
def QueryOptions.toEntries (o : QueryOptions) :
    List (PolicyField × PolicyVal) :=
  (match o.enabled with
   | some x => [(PolicyField.enabled, PolicyVal.b x)]
   | none => []) ++
  (match o.staleTime with
   | some x => [(PolicyField.staleTime, PolicyVal.n x)]
   | none => []) ++
  (match o.gcTime with
   | some x => [(PolicyField.gcTime, PolicyVal.n x)]
   | none => []) ++
  (match o.retry with
   | some x => [(PolicyField.retry, PolicyVal.n x)]
   | none => [])

/-- JavaScript object-literal semantics: a later assignment of the same
field overrides an earlier one. -/
def objGet (entries : List (PolicyField × PolicyVal)) (f : PolicyField) :
    Option PolicyVal :=
  entries.foldl (fun acc p => if p.1 == f then some p.2 else acc) none

/-- JavaScript `Boolean(id)` for a `string | null | undefined` value:
`null` and `undefined` (both `none`) and the empty string are falsy. -/
def jsBoolean : Option String → Bool
  | none => false
  | some s => !(s == "")

/-- `useMarketsQuery` (`hooks/markets.ts`): spreads the caller's options,
then sets `staleTime` (caller's value or 60000) and `gcTime` (caller's
value or 300000) after the spread. -/
def useMarketsQuery (options : QueryOptions) :
    List (PolicyField × PolicyVal) :=
  let staleTime := options.staleTime.getD 60000
  let gcTime := options.gcTime.getD 300000
  options.toEntries ++
    [(PolicyField.staleTime, PolicyVal.n staleTime),
     (PolicyField.gcTime, PolicyVal.n gcTime)]

/-- `usePlatformMetricsQuery` (`hooks/platform.ts`): spreads the caller's
options, then sets `staleTime` (caller's value or 120000) after the spread. -/
def usePlatformMetricsQuery (options : QueryOptions) :
    List (PolicyField × PolicyVal) :=
  let staleTime := options.staleTime.getD 120000
  options.toEntries ++ [(PolicyField.staleTime, PolicyVal.n staleTime)]

/-- `useMarketQuery` (`hooks/markets.ts`): computes
`enabled = options.enabled ?? Boolean(marketId)` and
`staleTime = options.staleTime ?? 30000`, both set after the spread. -/
def useMarketQuery (marketId : Option String) (options : QueryOptions) :
    List (PolicyField × PolicyVal) :=
  let enabled := options.enabled.getD (jsBoolean marketId)
  let staleTime := options.staleTime.getD 30000
  options.toEntries ++
    [(PolicyField.enabled, PolicyVal.b enabled),
     (PolicyField.staleTime, PolicyVal.n staleTime)]

/-- `useMarketTradesQuery` (`hooks/trades.ts`): computes
`enabled = options.enabled ?? Boolean(marketId)`, set after the spread;
no custom staleness. -/
def useMarketTradesQuery (marketId : Option String)
    (options : QueryOptions) : List (PolicyField × PolicyVal) :=
  let enabled := options.enabled.getD (jsBoolean marketId)
  options.toEntries ++ [(PolicyField.enabled, PolicyVal.b enabled)]

/-- `useUserTradesQuery` (`hooks/trades.ts`): same policy shape as
`useMarketTradesQuery`, keyed by user id. -/
def useUserTradesQuery (userId : Option String) (options : QueryOptions) :
    List (PolicyField × PolicyVal) :=
  let enabled := options.enabled.getD (jsBoolean userId)
  options.toEntries ++ [(PolicyField.enabled, PolicyVal.b enabled)]

/-- `useAccountQuery` (`hooks/users.ts`): same policy shape, keyed by
account id. -/
def useAccountQuery (accountId : Option String) (options : QueryOptions) :
    List (PolicyField × PolicyVal) :=
  let enabled := options.enabled.getD (jsBoolean accountId)
  options.toEntries ++ [(PolicyField.enabled, PolicyVal.b enabled)]

/-- The `enabled` flag the query library sees: the last `enabled`
assignment, defaulting to `true` when the field is absent. -/
def resolvedEnabled (entries : List (PolicyField × PolicyVal)) : Bool :=
  match objGet entries PolicyField.enabled with
  | some (PolicyVal.b x) => x
  | _ => true

/-- The `staleTime` the query library sees (`none` = library default). -/
def resolvedStaleTime (entries : List (PolicyField × PolicyVal)) :
    Option Nat :=
  match objGet entries PolicyField.staleTime with
  | some (PolicyVal.n x) => some x
  | _ => none

/-- The `gcTime` the query library sees (`none` = library default). -/
def resolvedGcTime (entries : List (PolicyField × PolicyVal)) :
    Option Nat :=
  match objGet entries PolicyField.gcTime with
  | some (PolicyVal.n x) => some x
  | _ => none

/-- The forwarded `retry` policy the query library sees. -/
def resolvedRetry (entries : List (PolicyField × PolicyVal)) : Option Nat :=
  match objGet entries PolicyField.retry with
  | some (PolicyVal.n x) => some x
  | _ => none

/-- Modelled from the spec: the external query-caching library invokes a
query's fetch function only when the query is enabled ("entries for
absent/null identifiers are never fetched (the operation is disabled)").
This counts the fetch invocations the library performs for one hook call. -/
def queryFetchCount (entries : List (PolicyField × PolicyVal)) : Nat :=
  if resolvedEnabled entries then 1 else 0

/-- JS bigint division agrees with mathematical floor division when both
operands are non-negative. -/
theorem bigintDiv_eq_ediv_of_nonneg (a b : Int) (ha : 0 ≤ a) (hb : 0 ≤ b) :
    bigintDiv a b = a / b := by
  obtain ⟨m, rfl⟩ := Int.eq_ofNat_of_zero_le ha
  obtain ⟨n, rfl⟩ := Int.eq_ofNat_of_zero_le hb
  rfl

/-- For a non-negative quote and a slippage of at most 10000 bps, the
mutation's `minAmountOut` is the floor of `expectedOut*(10000-s)/10000`
(with the positive divisor 10000, `/` on `Int` is that floor). -/
theorem minAmountOut_eq_floor (e s : Int) (he : 0 ≤ e) (hs : s ≤ 10000) :
    minAmountOut e s = e * (10000 - s) / 10000 := by
  unfold minAmountOut
  exact bigintDiv_eq_ediv_of_nonneg _ _ (mul_nonneg he (by omega)) (by norm_num)

/-- Claim C1 is false as stated: slippageBps is not validated, and for the
supplied `slippageBps = 10001` with quote `expectedOut = 1 ≥ 0` the buy
mutation submits minimum-out `0` (bigint truncation toward zero), while
`floor(1 * (10000 - 10001) / 10000) = -1`. -/
theorem buy_minout_floor_counterexample :
    (marketBuy
        ⟨some "0xcaller", true, "0xtoken", 0, 0, fun _ => 1, fun _ => 1,
          "0xhash"⟩ 1000 10001).2 =
      [ContractCall.readPurchaseReturn 1000, ContractCall.writeBuy 1000 0] ∧
    (1 : Int) * (10000 - 10001) / 10000 = -1 ∧
    (marketBuy
        ⟨some "0xcaller", true, "0xtoken", 0, 0, fun _ => 1, fun _ => 1,
          "0xhash"⟩ 1000 10001).2 ≠
      [ContractCall.readPurchaseReturn 1000,
       ContractCall.writeBuy 1000 ((1 : Int) * (10000 - 10001) / 10000)] := by
  refine ⟨by decide, by decide, by decide⟩

/-- Claim C1 (amended): for every quote `expectedOut ≥ 0` and every supplied
`slippageBps ≤ 10000`, both mutations submit exactly
`floor(expectedOut * (10000 - slippageBps) / 10000)` as minimum-out, and in
particular `expectedOut = 2000`, `slippageBps = 50` gives `1990`. -/
theorem buy_sell_minout_is_floor (env : MarketEnv) (addr : String)
    (deposit slip e eS : Int) (acct : String)
    (hacct : env.account = some acct) (hdep : 0 < deposit)
    (hs : slip ≤ 10000)
    (hbuyq : env.purchaseReturn deposit = e) (he : 0 ≤ e)
    (hopen : env.isSellOpen = true) (hbal : ¬ env.balanceOf < deposit)
    (hall : ¬ env.allowance < deposit)
    (hsellq : env.saleReturn deposit = eS) (heS : 0 ≤ eS) :
    marketBuy env deposit slip =
      (Except.ok ⟨env.writeHash⟩,
       [ContractCall.readPurchaseReturn deposit,
        ContractCall.writeBuy deposit (e * (10000 - slip) / 10000)]) ∧
    marketSell env addr deposit slip =
      (Except.ok ⟨env.writeHash⟩,
       [ContractCall.readIsSellOpen, ContractCall.readIssuanceToken,
        ContractCall.readBalanceOf env.fTokenAddress acct,
        ContractCall.readAllowance env.fTokenAddress acct addr,
        ContractCall.readSaleReturn deposit,
        ContractCall.writeSell deposit (eS * (10000 - slip) / 10000)]) ∧
    minAmountOut 2000 50 = 1990 := by
  refine ⟨?_, ?_, by decide⟩
  · simp only [marketBuy, hacct]
    rw [if_neg (by omega)]
    simp only [hbuyq, minAmountOut_eq_floor e slip he hs]
  · simp only [marketSell, hacct]
    rw [if_neg (by omega), if_neg (by simp [hopen]), if_neg hbal, if_neg hall]
    simp only [hsellq, minAmountOut_eq_floor eS slip heS hs]

/-- Witness for `buy_sell_minout_is_floor` at a concrete environment. -/
theorem buy_sell_minout_is_floor_witness :
    marketBuy
        ⟨some "0xcaller", true, "0xtoken", 1000, 1000, fun _ => 2000,
          fun _ => 2000, "0xhash"⟩ 1000 50 =
      (Except.ok ⟨"0xhash"⟩,
       [ContractCall.readPurchaseReturn 1000,
        ContractCall.writeBuy 1000 ((2000 : Int) * (10000 - 50) / 10000)]) ∧
    marketSell
        ⟨some "0xcaller", true, "0xtoken", 1000, 1000, fun _ => 2000,
          fun _ => 2000, "0xhash"⟩ "0xmarket" 1000 50 =
      (Except.ok ⟨"0xhash"⟩,
       [ContractCall.readIsSellOpen, ContractCall.readIssuanceToken,
        ContractCall.readBalanceOf "0xtoken" "0xcaller",
        ContractCall.readAllowance "0xtoken" "0xcaller" "0xmarket",
        ContractCall.readSaleReturn 1000,
        ContractCall.writeSell 1000 ((2000 : Int) * (10000 - 50) / 10000)]) ∧
    minAmountOut 2000 50 = 1990 :=
  buy_sell_minout_is_floor
    ⟨some "0xcaller", true, "0xtoken", 1000, 1000, fun _ => 2000,
      fun _ => 2000, "0xhash"⟩ "0xmarket" 1000 50 2000 2000 "0xcaller"
    rfl (by decide) (by decide) rfl (by decide) rfl (by decide) (by decide)
    rfl (by decide)

/-- Claim C7: for a fixed quote `expectedOut ≥ 0`, `minAmountOut` is
monotonically non-increasing in `slippageBps` over `[0, 10000]`. -/
theorem minout_antitone_in_slippage (e s1 s2 : Int) (he : 0 ≤ e)
    (_h0 : 0 ≤ s1) (h12 : s1 ≤ s2) (h2 : s2 ≤ 10000) :
    minAmountOut e s2 ≤ minAmountOut e s1 := by
  rw [minAmountOut_eq_floor e s1 he (by omega),
    minAmountOut_eq_floor e s2 he h2]
  exact Int.ediv_le_ediv (by norm_num)
    (mul_le_mul_of_nonneg_left (by omega) he)

/-- Witness for `minout_antitone_in_slippage`. -/
theorem minout_antitone_in_slippage_witness :
    minAmountOut 2000 10000 ≤ minAmountOut 2000 50 :=
  minout_antitone_in_slippage 2000 50 10000 (by decide) (by decide)
    (by decide) (by decide)

/-- Claim C9: for `slippageBps` in `[0, 10000]` and `expectedOut ≥ 0`, the
computed minimum-out is never negative and never exceeds the quote. -/
theorem minout_bounds (e s : Int) (he : 0 ≤ e) (_h0 : 0 ≤ s)
    (h1 : s ≤ 10000) :
    0 ≤ minAmountOut e s ∧ minAmountOut e s ≤ e := by
  rw [minAmountOut_eq_floor e s he h1]
  constructor
  · exact Int.ediv_nonneg (mul_nonneg he (by omega)) (by norm_num)
  · calc e * (10000 - s) / 10000 ≤ e * 10000 / 10000 :=
        Int.ediv_le_ediv (by norm_num)
          (mul_le_mul_of_nonneg_left (by omega) he)
      _ = e := Int.mul_ediv_cancel e (by norm_num)

/-- Witness for `minout_bounds`. -/
theorem minout_bounds_witness :
    0 ≤ minAmountOut 2000 50 ∧ minAmountOut 2000 50 ≤ 2000 :=
  minout_bounds 2000 50 (by decide) (by decide) (by decide)

/-- Claim C2: once the sell flow reaches the balance read (active account,
positive amount, sell side open) and `balance < depositAmount`, the mutation
fails with the insufficient-balance error and its trace holds no allowance
read and no write. -/
theorem sell_insufficient_balance (env : MarketEnv) (addr : String)
    (deposit slip : Int) (acct : String)
    (hacct : env.account = some acct) (hdep : 0 < deposit)
    (hopen : env.isSellOpen = true) (hbal : env.balanceOf < deposit) :
    (marketSell env addr deposit slip).1 =
      Except.error (insufficientBalanceMsg env.balanceOf deposit) ∧
    ∀ c ∈ (marketSell env addr deposit slip).2,
      c.isAllowanceRead = false ∧ c.isWriteCall = false := by
  have hms : marketSell env addr deposit slip =
      (Except.error (insufficientBalanceMsg env.balanceOf deposit),
       [ContractCall.readIsSellOpen, ContractCall.readIssuanceToken,
        ContractCall.readBalanceOf env.fTokenAddress acct]) := by
    simp only [marketSell, hacct]
    rw [if_neg (by omega), if_neg (by simp [hopen]), if_pos hbal]
  rw [hms]
  refine ⟨rfl, ?_⟩
  intro c hc
  fin_cases hc <;> exact ⟨rfl, rfl⟩

/-- Witness for `sell_insufficient_balance`: balance 500, deposit 1000. -/
theorem sell_insufficient_balance_witness :
    (marketSell
        ⟨some "0xcaller", true, "0xtoken", 500, 0, fun _ => 0, fun _ => 0,
          "0xhash"⟩ "0xmarket" 1000 50).1 =
      Except.error (insufficientBalanceMsg 500 1000) ∧
    ∀ c ∈ (marketSell
        ⟨some "0xcaller", true, "0xtoken", 500, 0, fun _ => 0, fun _ => 0,
          "0xhash"⟩ "0xmarket" 1000 50).2,
      c.isAllowanceRead = false ∧ c.isWriteCall = false :=
  sell_insufficient_balance
    ⟨some "0xcaller", true, "0xtoken", 500, 0, fun _ => 0, fun _ => 0,
      "0xhash"⟩ "0xmarket" 1000 50 "0xcaller" rfl (by decide) rfl (by decide)

/-- Claim C3: with sufficient balance but `allowance < depositAmount`, the
sell mutation fails with the insufficient-allowance error, that error
message contains the fToken address to approve, and no write is submitted. -/
theorem sell_insufficient_allowance (env : MarketEnv) (addr : String)
    (deposit slip : Int) (acct : String)
    (hacct : env.account = some acct) (hdep : 0 < deposit)
    (hopen : env.isSellOpen = true) (hbal : ¬ env.balanceOf < deposit)
    (hall : env.allowance < deposit) :
    (marketSell env addr deposit slip).1 =
      Except.error
        (insufficientAllowanceMsg deposit env.allowance env.fTokenAddress) ∧
    containsSubstring
      (insufficientAllowanceMsg deposit env.allowance env.fTokenAddress)
      env.fTokenAddress ∧
    ∀ c ∈ (marketSell env addr deposit slip).2, c.isWriteCall = false := by
  have hms : marketSell env addr deposit slip =
      (Except.error
        (insufficientAllowanceMsg deposit env.allowance env.fTokenAddress),
       [ContractCall.readIsSellOpen, ContractCall.readIssuanceToken,
        ContractCall.readBalanceOf env.fTokenAddress acct,
        ContractCall.readAllowance env.fTokenAddress acct addr]) := by
    simp only [marketSell, hacct]
    rw [if_neg (by omega), if_neg (by simp [hopen]), if_neg hbal,
      if_pos hall]
  rw [hms]
  refine ⟨rfl, ?_, ?_⟩
  · refine ⟨insufficientAllowancePrefix deposit env.allowance, "", ?_⟩
    rw [String.append_empty]
    rfl
  · intro c hc
    fin_cases hc <;> rfl

/-- Witness for `sell_insufficient_allowance`: balance 1000, allowance 400,
deposit 1000. -/
theorem sell_insufficient_allowance_witness :
    (marketSell
        ⟨some "0xcaller", true, "0xtoken", 1000, 400, fun _ => 0,
          fun _ => 0, "0xhash"⟩ "0xmarket" 1000 50).1 =
      Except.error (insufficientAllowanceMsg 1000 400 "0xtoken") ∧
    containsSubstring (insufficientAllowanceMsg 1000 400 "0xtoken")
      "0xtoken" ∧
    ∀ c ∈ (marketSell
        ⟨some "0xcaller", true, "0xtoken", 1000, 400, fun _ => 0,
          fun _ => 0, "0xhash"⟩ "0xmarket" 1000 50).2,
      c.isWriteCall = false :=
  sell_insufficient_allowance
    ⟨some "0xcaller", true, "0xtoken", 1000, 400, fun _ => 0, fun _ => 0,
      "0xhash"⟩ "0xmarket" 1000 50 "0xcaller" rfl (by decide) rfl
    (by decide) (by decide)

/-- Claim C4: each of the buy, sell and approve mutations, when the amount
is non-positive or no wallet account is active, fails with one of the two
precondition errors and performs no contract call at all. -/
theorem mutation_precondition_guards (env : MarketEnv) (addr : String)
    (amount slip : Int) (hpre : env.account = none ∨ amount ≤ 0) :
    ((marketBuy env amount slip).1 = Except.error walletNotConnectedMsg ∨
     (marketBuy env amount slip).1 = Except.error invalidAmountMsg) ∧
    (marketBuy env amount slip).2 = [] ∧
    ((marketSell env addr amount slip).1 =
        Except.error walletNotConnectedMsg ∨
     (marketSell env addr amount slip).1 = Except.error invalidAmountMsg) ∧
    (marketSell env addr amount slip).2 = [] ∧
    ((marketApprove env addr amount).1 =
        Except.error walletNotConnectedMsg ∨
     (marketApprove env addr amount).1 = Except.error invalidApprovalMsg) ∧
    (marketApprove env addr amount).2 = [] := by
  cases henv : env.account with
  | none =>
    refine ⟨Or.inl ?_, ?_, Or.inl ?_, ?_, Or.inl ?_, ?_⟩ <;>
      simp [marketBuy, marketSell, marketApprove, henv]
  | some a =>
    have hamt : amount ≤ 0 := by
      rcases hpre with h | h
      · rw [henv] at h
        exact absurd h (by simp)
      · exact h
    refine ⟨Or.inr ?_, ?_, Or.inr ?_, ?_, Or.inr ?_, ?_⟩ <;>
      simp [marketBuy, marketSell, marketApprove, henv, if_pos hamt]

/-- Witness for `mutation_precondition_guards`: disconnected wallet. -/
theorem mutation_precondition_guards_witness :
    (((marketBuy ⟨none, true, "0xtoken", 0, 0, fun _ => 0, fun _ => 0,
          "0xhash"⟩ 1000 50).1 = Except.error walletNotConnectedMsg ∨
      (marketBuy ⟨none, true, "0xtoken", 0, 0, fun _ => 0, fun _ => 0,
          "0xhash"⟩ 1000 50).1 = Except.error invalidAmountMsg) ∧
     (marketBuy ⟨none, true, "0xtoken", 0, 0, fun _ => 0, fun _ => 0,
         "0xhash"⟩ 1000 50).2 = [] ∧
     ((marketSell ⟨none, true, "0xtoken", 0, 0, fun _ => 0, fun _ => 0,
          "0xhash"⟩ "0xmarket" 1000 50).1 =
         Except.error walletNotConnectedMsg ∨
      (marketSell ⟨none, true, "0xtoken", 0, 0, fun _ => 0, fun _ => 0,
          "0xhash"⟩ "0xmarket" 1000 50).1 =
         Except.error invalidAmountMsg) ∧
     (marketSell ⟨none, true, "0xtoken", 0, 0, fun _ => 0, fun _ => 0,
         "0xhash"⟩ "0xmarket" 1000 50).2 = [] ∧
     ((marketApprove ⟨none, true, "0xtoken", 0, 0, fun _ => 0, fun _ => 0,
          "0xhash"⟩ "0xmarket" 1000).1 =
         Except.error walletNotConnectedMsg ∨
      (marketApprove ⟨none, true, "0xtoken", 0, 0, fun _ => 0, fun _ => 0,
          "0xhash"⟩ "0xmarket" 1000).1 =
         Except.error invalidApprovalMsg) ∧
     (marketApprove ⟨none, true, "0xtoken", 0, 0, fun _ => 0, fun _ => 0,
         "0xhash"⟩ "0xmarket" 1000).2 = []) :=
  mutation_precondition_guards
    ⟨none, true, "0xtoken", 0, 0, fun _ => 0, fun _ => 0, "0xhash"⟩
    "0xmarket" 1000 50 (Or.inl rfl)

/-- Claim C5: the trade executor fails with no submission when the wallet
has no account; otherwise it submits exactly one call to the market's buy
or sell entry point with the two decimal strings converted at the supplied
precision, and returns the submission's hash with the requested direction. -/
theorem trade_executor_protocol (parseUnits : String → Nat → Int)
    (wc : WalletClient) (bp : BuyTradeParams) (sp : SellTradeParams) :
    (wc.account = none →
      executeBuyTrade parseUnits wc bp =
        (Except.error "Wallet account is not available", []) ∧
      executeSellTrade parseUnits wc sp =
        (Except.error "Wallet account is not available", [])) ∧
    (∀ acct, wc.account = some acct →
      executeBuyTrade parseUnits wc bp =
        (Except.ok ⟨wc.writeResult, TradeDirection.buy⟩,
         [⟨bp.floorAssetAddress, "buy",
           [parseUnits bp.depositAmount bp.decimals,
            parseUnits bp.minAmountOut bp.decimals]⟩]) ∧
      executeSellTrade parseUnits wc sp =
        (Except.ok ⟨wc.writeResult, TradeDirection.sell⟩,
         [⟨sp.floorAssetAddress, "sell",
           [parseUnits sp.sellAmount sp.decimals,
            parseUnits sp.minAmountOut sp.decimals]⟩])) := by
  constructor
  · intro h
    constructor <;> simp only [executeBuyTrade, executeSellTrade, h]
  · intro acct h
    constructor <;> simp only [executeBuyTrade, executeSellTrade, h]

/-- Witness for `trade_executor_protocol`: a connected and a disconnected
wallet at a concrete conversion function. -/
theorem trade_executor_protocol_witness :
    executeBuyTrade (fun _ d => (d : Int)) ⟨some "0xacct", "0xhash"⟩
        ⟨"0xfloor", "1.5", "1.0", 18⟩ =
      (Except.ok ⟨"0xhash", TradeDirection.buy⟩,
       [⟨"0xfloor", "buy", [18, 18]⟩]) ∧
    executeSellTrade (fun _ d => (d : Int)) ⟨some "0xacct", "0xhash"⟩
        ⟨"0xfloor", "2.0", "1.9", 6⟩ =
      (Except.ok ⟨"0xhash", TradeDirection.sell⟩,
       [⟨"0xfloor", "sell", [6, 6]⟩]) ∧
    executeBuyTrade (fun _ d => (d : Int)) ⟨none, "0xhash"⟩
        ⟨"0xfloor", "1", "1", 18⟩ =
      (Except.error "Wallet account is not available", []) :=
  ⟨((trade_executor_protocol (fun _ d => (d : Int)) ⟨some "0xacct", "0xhash"⟩
      ⟨"0xfloor", "1.5", "1.0", 18⟩ ⟨"0xfloor", "2.0", "1.9", 6⟩).2 "0xacct"
      rfl).1,
   ((trade_executor_protocol (fun _ d => (d : Int)) ⟨some "0xacct", "0xhash"⟩
      ⟨"0xfloor", "1.5", "1.0", 18⟩ ⟨"0xfloor", "2.0", "1.9", 6⟩).2 "0xacct"
      rfl).2,
   ((trade_executor_protocol (fun _ d => (d : Int)) ⟨none, "0xhash"⟩
      ⟨"0xfloor", "1", "1", 18⟩ ⟨"0xfloor", "1", "1", 18⟩).1 rfl).1⟩

/-- Claim C6: each hook keyed by an identifier reports disabled, and the
query layer performs no fetch, when the identifier is null/undefined
(`none`) or the empty string and the caller does not override `enabled`. -/
theorem blank_id_hooks_disabled (id : Option String) (opts : QueryOptions)
    (hen : opts.enabled = none) (hid : id = none ∨ id = some "") :
    (resolvedEnabled (useMarketQuery id opts) = false ∧
     queryFetchCount (useMarketQuery id opts) = 0) ∧
    (resolvedEnabled (useMarketTradesQuery id opts) = false ∧
     queryFetchCount (useMarketTradesQuery id opts) = 0) ∧
    (resolvedEnabled (useUserTradesQuery id opts) = false ∧
     queryFetchCount (useUserTradesQuery id opts) = 0) ∧
    (resolvedEnabled (useAccountQuery id opts) = false ∧
     queryFetchCount (useAccountQuery id opts) = 0) := by
  rcases hid with rfl | rfl <;>
    (obtain ⟨e, s, g, r⟩ := opts
     cases e with
     | some x => simp at hen
     | none =>
       cases s <;> cases g <;> cases r <;>
         exact ⟨⟨rfl, rfl⟩, ⟨rfl, rfl⟩, ⟨rfl, rfl⟩, rfl, rfl⟩)

/-- Witness for `blank_id_hooks_disabled`: `useMarketQuery(undefined)` and
the other identifier hooks, called with no options, are disabled. -/
theorem blank_id_hooks_disabled_witness :
    (resolvedEnabled (useMarketQuery none noOptions) = false ∧
     queryFetchCount (useMarketQuery none noOptions) = 0) ∧
    (resolvedEnabled (useMarketTradesQuery none noOptions) = false ∧
     queryFetchCount (useMarketTradesQuery none noOptions) = 0) ∧
    (resolvedEnabled (useUserTradesQuery none noOptions) = false ∧
     queryFetchCount (useUserTradesQuery none noOptions) = 0) ∧
    (resolvedEnabled (useAccountQuery none noOptions) = false ∧
     queryFetchCount (useAccountQuery none noOptions) = 0) :=
  blank_id_hooks_disabled none noOptions rfl (Or.inl rfl)

/-- Claim C8: `useMarketsQuery()` with no options resolves
staleTime 60000 and gcTime 300000, `usePlatformMetricsQuery()` resolves
staleTime 120000, and for every hook each caller-supplied policy field
takes precedence while the computed enabled/staleTime fallback applies
exactly when the caller omits the field. -/
theorem hook_policy_defaults_and_overrides :
    resolvedStaleTime (useMarketsQuery noOptions) = some 60000 ∧
    resolvedGcTime (useMarketsQuery noOptions) = some 300000 ∧
    resolvedStaleTime (usePlatformMetricsQuery noOptions) = some 120000 ∧
    (∀ (opts : QueryOptions) (id : Option String),
      resolvedStaleTime (useMarketsQuery opts) =
        some (opts.staleTime.getD 60000) ∧
      resolvedGcTime (useMarketsQuery opts) =
        some (opts.gcTime.getD 300000) ∧
      resolvedEnabled (useMarketsQuery opts) = opts.enabled.getD true ∧
      resolvedRetry (useMarketsQuery opts) = opts.retry ∧
      resolvedStaleTime (usePlatformMetricsQuery opts) =
        some (opts.staleTime.getD 120000) ∧
      resolvedGcTime (usePlatformMetricsQuery opts) = opts.gcTime ∧
      resolvedEnabled (useMarketQuery id opts) =
        opts.enabled.getD (jsBoolean id) ∧
      resolvedStaleTime (useMarketQuery id opts) =
        some (opts.staleTime.getD 30000) ∧
      resolvedEnabled (useMarketTradesQuery id opts) =
        opts.enabled.getD (jsBoolean id) ∧
      resolvedStaleTime (useMarketTradesQuery id opts) = opts.staleTime ∧
      resolvedEnabled (useUserTradesQuery id opts) =
        opts.enabled.getD (jsBoolean id) ∧
      resolvedEnabled (useAccountQuery id opts) =
        opts.enabled.getD (jsBoolean id)) := by
  refine ⟨rfl, rfl, rfl, ?_⟩
  intro opts id
  obtain ⟨e, s, g, r⟩ := opts
  cases e <;> cases s <;> cases g <;> cases r <;>
    exact ⟨rfl, rfl, rfl, rfl, rfl, rfl, rfl, rfl, rfl, rfl, rfl, rfl⟩

/-- Claim C10: `Market.approveFToken` performs no validation: for every
environment (any account state) and every amount, including non-positive
ones, it reads the issuance-token address, submits the approve write, and
returns the submission's hash. -/
theorem approve_ftoken_no_validation (env : MarketEnv) (addr : String)
    (amount : Int) :
    approveFToken env addr amount =
      (Except.ok ⟨env.writeHash⟩,
       [ContractCall.readIssuanceToken,
        ContractCall.writeApprove env.fTokenAddress addr amount]) := rfl
